import Mathlib

/-!
Shallow embedding of the `hard-settlement-system` package
(`distributed_lock.py`, `idempotency_store.py`, `settlement_engine.py`).

Python dictionaries are modelled as insertion-ordered association lists over
`String` keys.  Python `float` amounts and timestamps are modelled as `ℚ`
(every value appearing in the verified scenarios is an integer, where float
arithmetic is exact).  Wall-clock reads (`time.time()`, `datetime.now()`) are
modelled by threading an explicit `now : ℚ` parameter; a single API call is
treated as instantaneous.  A raised Python exception is modelled as an
`Except`-style error value carrying the exception message, paired with the
mutated state, because Python object mutations survive an unwinding exception.
-/

/-- Lookup in an insertion-ordered association list, modelling `dict.get`. -/
def alistGet {α : Type} (l : List (String × α)) (k : String) : Option α :=
  match l with
  | [] => none
  | (k', v) :: rest => if k' = k then some v else alistGet rest k

/-- Insert/update in an association list, modelling `d[k] = v`
(updates in place, inserts at the end, as Python dicts do). -/
def alistPut {α : Type} (l : List (String × α)) (k : String) (v : α) : List (String × α) :=
  match l with
  | [] => [(k, v)]
  | (k', v') :: rest => if k' = k then (k', v) :: rest else (k', v') :: alistPut rest k v

/-- Deletion from an association list, modelling `del d[k]`. -/
def alistDel {α : Type} (l : List (String × α)) (k : String) : List (String × α) :=
  match l with
  | [] => []
  | (k', v') :: rest => if k' = k then rest else (k', v') :: alistDel rest k

/-- Zero-padded decimal rendering, modelling a Python format such as
`f"settlement_\x7bn:08d\x7d"`'s numeric part. -/
def zeroPad (w : Nat) (n : Nat) : String :=
  let s := toString n
  String.mk (List.replicate (w - s.length) '0') ++ s

/-! ## distributed_lock.py -/

/-- `LockInfo` dataclass: information about a held lock. -/
structure LockInfo where
  lock_key : String
  holder_id : String
  acquired_at : ℚ
  ttl_seconds : ℚ
deriving DecidableEq, Repr

/-- `LockInfo.is_expired`: `time.time() > acquired_at + ttl_seconds`, with the
clock passed explicitly. -/
def LockInfo.is_expired (l : LockInfo) (now : ℚ) : Bool :=
  now > l.acquired_at + l.ttl_seconds

/-- `DistributedLockManager`: the `locks` table (`lock_key -> LockInfo`).
The `manager_lock` mutex only serializes access and has no sequential
content. -/
structure DistributedLockManager where
  locks : List (String × LockInfo)
deriving DecidableEq, Repr

/-- `DistributedLockManager.acquire`.  If a record exists: expired records are
deleted and the flow falls through to the insertion; a record held by the same
holder only has its `acquired_at` refreshed (reentrant branch, returns early);
a live record of another holder yields `false`.  Otherwise a fresh record is
inserted with the given TTL. -/
def DistributedLockManager.acquire (m : DistributedLockManager)
    (lock_key holder_id : String) (ttl_seconds : ℚ) (now : ℚ) :
    Bool × DistributedLockManager :=
  match alistGet m.locks lock_key with
  | some existing_lock =>
    if existing_lock.is_expired now then
      (true, ⟨alistPut (alistDel m.locks lock_key) lock_key
        ⟨lock_key, holder_id, now, ttl_seconds⟩⟩)
    else if existing_lock.holder_id = holder_id then
      (true, ⟨alistPut m.locks lock_key { existing_lock with acquired_at := now }⟩)
    else
      (false, m)
  | none =>
    (true, ⟨alistPut m.locks lock_key ⟨lock_key, holder_id, now, ttl_seconds⟩⟩)

/-- `DistributedLockManager.release`: the body under `manager_lock` is `pass`
and the function then hits the `TEMPORARY return True`, so it always returns
`True` and never touches the lock table. -/
def DistributedLockManager.release (m : DistributedLockManager)
    (lock_key holder_id : String) : Bool × DistributedLockManager :=
  (true, m)

/-- `DistributedLockManager.is_locked`: absent key is `False`; an expired
record is deleted and `False` returned; otherwise `True`. -/
def DistributedLockManager.is_locked (m : DistributedLockManager)
    (lock_key : String) (now : ℚ) : Bool × DistributedLockManager :=
  match alistGet m.locks lock_key with
  | none => (false, m)
  | some lock_info =>
    if lock_info.is_expired now then (false, ⟨alistDel m.locks lock_key⟩)
    else (true, m)

/-! ## idempotency_store.py -/

/-- The filesystem the persistence file lives on: path -> contents. -/
abbrev FileSystem := List (String × String)

/-- `IdempotencyStore`: in-memory `store` dict plus the configured
`persistence_file` path. -/
structure IdempotencyStore where
  store : List (String × String)
  persistence_file : Option String
deriving DecidableEq, Repr

/-- `IdempotencyStore._load_from_disk`: returns early when no persistence file
is configured or the file does not exist; otherwise the `try` body is `pass`
(the JSON load is commented out), so the store is unchanged either way. -/
def IdempotencyStore.load_from_disk (s : IdempotencyStore) (fs : FileSystem) :
    IdempotencyStore :=
  match s.persistence_file with
  | none => s
  | some f =>
    match alistGet fs f with
    | none => s
    | some _contents => s

/-- `IdempotencyStore.__init__`: starts with an empty in-memory dict and calls
`_load_from_disk` when a persistence file is configured. -/
def IdempotencyStore.init (persistence_file : Option String) (fs : FileSystem) :
    IdempotencyStore :=
  let s : IdempotencyStore := { store := [], persistence_file := persistence_file }
  match persistence_file with
  | none => s
  | some _ => s.load_from_disk fs

/-- `IdempotencyStore.put`: `self.store[idempotency_key] = settlement_id`; the
disk write is commented out in the source, so the filesystem is returned
unchanged. -/
def IdempotencyStore.put (s : IdempotencyStore) (fs : FileSystem)
    (idempotency_key settlement_id : String) : IdempotencyStore × FileSystem :=
  ({ s with store := alistPut s.store idempotency_key settlement_id }, fs)

/-- `IdempotencyStore.get`: `self.store.get(idempotency_key)`. -/
def IdempotencyStore.get (s : IdempotencyStore) (idempotency_key : String) :
    Option String :=
  alistGet s.store idempotency_key

/-! ## settlement_engine.py : statuses, settlements, blockchain simulator -/

/-- `SettlementStatus` enum. -/
inductive SettlementStatus where
  | PENDING | PROCESSING | BURNING | BURNED | MINTING | MINTED
  | COMPLETED | FAILED | COMPENSATING
deriving DecidableEq, Repr

/-- `Settlement` dataclass. -/
structure Settlement where
  settlement_id : String
  source_chain : String
  dest_chain : String
  amount : ℚ
  user_id : String
  status : SettlementStatus
  created_at : ℚ
  updated_at : ℚ
  error_message : Option String := none
  burn_tx_hash : Option String := none
  mint_tx_hash : Option String := none
deriving DecidableEq, Repr

/-- `BlockchainSimulator`: nested balances dict (chain -> user -> balance),
transaction counter and the failure-injection flags. -/
structure BlockchainSimulator where
  balances : List (String × List (String × ℚ))
  tx_counter : Nat
  should_fail_burn : Bool := false
  should_fail_mint : Bool := false
deriving DecidableEq, Repr

/-- `BlockchainSimulator.set_balance`. -/
def BlockchainSimulator.set_balance (b : BlockchainSimulator)
    (chain user_id : String) (amount : ℚ) : BlockchainSimulator :=
  let chain_balances := (alistGet b.balances chain).getD []
  { b with balances := alistPut b.balances chain (alistPut chain_balances user_id amount) }

/-- `BlockchainSimulator.get_balance`:
`self.balances.get(chain, \x7b\x7d).get(user_id, 0.0)`. -/
def BlockchainSimulator.get_balance (b : BlockchainSimulator)
    (chain user_id : String) : ℚ :=
  (alistGet ((alistGet b.balances chain).getD []) user_id).getD 0

/-- `BlockchainSimulator.burn_tokens`.  Raises when the burn failure flag is
set or the balance is insufficient; otherwise debits the balance, bumps the
counter and returns the hash `burn_tx_` + counter padded to six digits.  When
the chain key is absent but the insufficiency check passes (only possible for
`amount ≤ 0`, unreachable from validated settlements), the direct dict
indexing raises `KeyError`. -/
def BlockchainSimulator.burn_tokens (b : BlockchainSimulator)
    (chain user_id : String) (amount : ℚ) :
    Except String (String × BlockchainSimulator) :=
  if b.should_fail_burn then .error ("Burn failed on " ++ chain)
  else
    let current := (alistGet ((alistGet b.balances chain).getD []) user_id).getD 0
    if current < amount then .error ("Insufficient balance on " ++ chain)
    else
      match alistGet b.balances chain with
      | none => .error ("KeyError: " ++ chain)
      | some chain_balances =>
        let balances' := alistPut b.balances chain (alistPut chain_balances user_id (current - amount))
        .ok ("burn_tx_" ++ zeroPad 6 (b.tx_counter + 1),
          { b with balances := balances', tx_counter := b.tx_counter + 1 })

/-- `BlockchainSimulator.mint_tokens`.  Raises when the mint failure flag is
set; otherwise credits the balance (creating the chain entry if absent), bumps
the counter and returns `mint_tx_` + counter padded to six digits. -/
def BlockchainSimulator.mint_tokens (b : BlockchainSimulator)
    (chain user_id : String) (amount : ℚ) :
    Except String (String × BlockchainSimulator) :=
  if b.should_fail_mint then .error ("Mint failed on " ++ chain)
  else
    let chain_balances := (alistGet b.balances chain).getD []
    let current := (alistGet chain_balances user_id).getD 0
    let balances' := alistPut b.balances chain (alistPut chain_balances user_id (current + amount))
    .ok ("mint_tx_" ++ zeroPad 6 (b.tx_counter + 1),
      { b with balances := balances', tx_counter := b.tx_counter + 1 })

/-! ## settlement_engine.py : SettlementEngine

Python mutates the `Settlement` object aliased from the `settlements` dict;
here every such attribute assignment is modelled as re-reading the record from
the table and writing the updated record back, which is observationally the
same in the sequential semantics (the entry is never removed).  An engine
operation that can raise returns its mutated state together with
`Except String α`, where `Except.error msg` is the propagating exception. -/

/-- `SettlementEngine` state: the collaborators plus the settlements table and
the id counter.  The two mutexes only serialize access. -/
structure SettlementEngine where
  blockchain : BlockchainSimulator
  lock_manager : DistributedLockManager
  idempotency_store : IdempotencyStore
  settlements : List (String × Settlement)
  settlement_counter : Nat
deriving DecidableEq, Repr

/-- `SettlementEngine.initiate_settlement`.  Validates `amount > 0`, replays
an existing idempotency mapping (indexing `self.settlements` directly, a
`KeyError` if the mapped settlement is gone), otherwise allocates
`settlement_` + counter padded to eight digits, stores a `PENDING` settlement
and records the idempotency mapping. -/
def SettlementEngine.initiate_settlement (e : SettlementEngine)
    (source_chain dest_chain : String) (amount : ℚ) (user_id idempotency_key : String)
    (fs : FileSystem) (now : ℚ) :
    Except String (Settlement × SettlementEngine × FileSystem) :=
  if amount ≤ 0 then .error ("Amount must be positive")
  else
    match e.idempotency_store.get idempotency_key with
    | some existing_settlement_id =>
      match alistGet e.settlements existing_settlement_id with
      | some s => .ok (s, e, fs)
      | none => .error ("KeyError: " ++ existing_settlement_id)
    | none =>
      let counter := e.settlement_counter + 1
      let settlement_id := "settlement_" ++ zeroPad 8 counter
      let settlement : Settlement :=
        { settlement_id := settlement_id, source_chain := source_chain,
          dest_chain := dest_chain, amount := amount, user_id := user_id,
          status := SettlementStatus.PENDING, created_at := now, updated_at := now }
      let settlements' := alistPut e.settlements settlement_id settlement
      let (store', fs') := e.idempotency_store.put fs idempotency_key settlement_id
      .ok (settlement,
        { e with settlement_counter := counter, settlements := settlements',
                 idempotency_store := store' }, fs')

/-- `SettlementEngine._update_settlement_status`: silently returns when the id
is unknown, otherwise sets `status` and `updated_at`. -/
def SettlementEngine.update_settlement_status (e : SettlementEngine)
    (settlement_id : String) (new_status : SettlementStatus) (now : ℚ) :
    SettlementEngine :=
  match alistGet e.settlements settlement_id with
  | none => e
  | some s =>
    let s' := { s with status := new_status, updated_at := now }
    { e with settlements := alistPut e.settlements settlement_id s' }

/-- `settlement.burn_tx_hash = burn_tx` on the aliased object, as a table
update (the entry is always present on this path). -/
def SettlementEngine.set_burn_tx_hash (e : SettlementEngine)
    (settlement_id burn_tx : String) : SettlementEngine :=
  match alistGet e.settlements settlement_id with
  | none => e
  | some s =>
    { e with settlements := alistPut e.settlements settlement_id { s with burn_tx_hash := some burn_tx } }

/-- `settlement.mint_tx_hash = mint_tx` on the aliased object, as a table
update. -/
def SettlementEngine.set_mint_tx_hash (e : SettlementEngine)
    (settlement_id mint_tx : String) : SettlementEngine :=
  match alistGet e.settlements settlement_id with
  | none => e
  | some s =>
    { e with settlements := alistPut e.settlements settlement_id { s with mint_tx_hash := some mint_tx } }

/-- `settlement.error_message = str(e)` on the aliased object, as a table
update. -/
def SettlementEngine.set_error_message (e : SettlementEngine)
    (settlement_id msg : String) : SettlementEngine :=
  match alistGet e.settlements settlement_id with
  | none => e
  | some s =>
    { e with settlements := alistPut e.settlements settlement_id { s with error_message := some msg } }

/-- `SettlementEngine._execute_settlement`: burn, record `burn_tx_hash`,
then mint, record `mint_tx_hash`, advancing the status through
`BURNING/BURNED/MINTING/MINTED/COMPLETED`; any exception from a ledger call is
caught, `error_message` is recorded, the status set to `FAILED`, and the
exception re-raised.  Returns the mutated engine together with the optional
propagating exception message (`none` = returned normally). -/
def SettlementEngine.execute_settlement (e : SettlementEngine)
    (settlement_id : String) (now : ℚ) : SettlementEngine × Option String :=
  match alistGet e.settlements settlement_id with
  | none => (e, some ("KeyError: " ++ settlement_id))
  | some settlement =>
    let e1 := e.update_settlement_status settlement_id SettlementStatus.BURNING now
    match e1.blockchain.burn_tokens settlement.source_chain settlement.user_id settlement.amount with
    | .error msg =>
      let e2 := e1.set_error_message settlement_id msg
      (e2.update_settlement_status settlement_id SettlementStatus.FAILED now, some msg)
    | .ok (burn_tx, bc1) =>
      let e2 := { e1 with blockchain := bc1 }
      let e3 := e2.set_burn_tx_hash settlement_id burn_tx
      let e4 := e3.update_settlement_status settlement_id SettlementStatus.BURNED now
      let e5 := e4.update_settlement_status settlement_id SettlementStatus.MINTING now
      match e5.blockchain.mint_tokens settlement.dest_chain settlement.user_id settlement.amount with
      | .error msg =>
        let e6 := e5.set_error_message settlement_id msg
        (e6.update_settlement_status settlement_id SettlementStatus.FAILED now, some msg)
      | .ok (mint_tx, bc2) =>
        let e6 := { e5 with blockchain := bc2 }
        let e7 := e6.set_mint_tx_hash settlement_id mint_tx
        let e8 := e7.update_settlement_status settlement_id SettlementStatus.MINTED now
        (e8.update_settlement_status settlement_id SettlementStatus.COMPLETED now, none)

/-- `SettlementEngine.process_settlement`, called with the worker thread name
as `holder`.  Raises `ValueError` when the id is unknown; tries to acquire the
lock `settlement_` + id with TTL 30; on contention returns `false`; when the
status is not `PENDING` returns `false`; otherwise moves to `PROCESSING`,
executes the stages and returns `true`.  The `finally` block calls
`release` on every exit path, including the exception path. -/
def SettlementEngine.process_settlement (e : SettlementEngine)
    (settlement_id holder : String) (now : ℚ) :
    SettlementEngine × Except String Bool :=
  match alistGet e.settlements settlement_id with
  | none => (e, .error ("Settlement " ++ settlement_id ++ " not found"))
  | some settlement =>
    let lock_key := "settlement_" ++ settlement_id
    let (lock_acquired, lm) := e.lock_manager.acquire lock_key holder 30 now
    let e1 := { e with lock_manager := lm }
    if lock_acquired = false then (e1, .ok false)
    else if settlement.status ≠ SettlementStatus.PENDING then
      let (_, lm2) := e1.lock_manager.release lock_key holder
      ({ e1 with lock_manager := lm2 }, .ok false)
    else
      let e2 := e1.update_settlement_status settlement_id SettlementStatus.PROCESSING now
      let (e3, exc) := e2.execute_settlement settlement_id now
      let (_, lm2) := e3.lock_manager.release lock_key holder
      let e4 := { e3 with lock_manager := lm2 }
      match exc with
      | none => (e4, .ok true)
      | some msg => (e4, .error msg)

/-- `SettlementEngine.retry_settlement`: returns `false` for an unknown id,
otherwise raises `NotImplementedError` (the retry logic is an unimplemented
TODO in the source). -/
def SettlementEngine.retry_settlement (e : SettlementEngine)
    (settlement_id : String) : SettlementEngine × Except String Bool :=
  match alistGet e.settlements settlement_id with
  | none => (e, .ok false)
  | some _ => (e, .error ("NotImplementedError: Retry logic not implemented"))

/-- `SettlementEngine._compensate_settlement`: indexes the settlements table
(`KeyError` when absent), then raises `NotImplementedError` (the compensation
logic is an unimplemented TODO in the source). -/
def SettlementEngine.compensate_settlement (e : SettlementEngine)
    (settlement_id : String) : SettlementEngine × Except String Unit :=
  match alistGet e.settlements settlement_id with
  | none => (e, .error ("KeyError: " ++ settlement_id))
  | some _ => (e, .error ("NotImplementedError: Compensation not implemented"))

/-- `SettlementEngine.get_settlement`. -/
def SettlementEngine.get_settlement (e : SettlementEngine)
    (settlement_id : String) : Option Settlement :=
  alistGet e.settlements settlement_id

/-! ## Association-list lemmas -/

theorem alistGet_alistPut_self {α : Type} (l : List (String × α)) (k : String) (v : α) :
    alistGet (alistPut l k v) k = some v := by
  induction l with
  | nil => simp [alistPut, alistGet]
  | cons hd tl ih =>
    obtain ⟨k', v'⟩ := hd
    by_cases h : k' = k
    · simp [alistPut, alistGet, h]
    · simp [alistPut, alistGet, h, ih]

theorem alistGet_alistPut_ne {α : Type} (l : List (String × α)) {k k' : String} (v : α)
    (h : k ≠ k') : alistGet (alistPut l k v) k' = alistGet l k' := by
  induction l with
  | nil => simp [alistPut, alistGet, h]
  | cons hd tl ih =>
    obtain ⟨k₀, v₀⟩ := hd
    by_cases h₀ : k₀ = k
    · subst h₀
      simp [alistPut, alistGet, h]
    · by_cases h₁ : k₀ = k'
      · subst h₁
        simp [alistPut, alistGet, h₀]
      · simp [alistPut, alistGet, h₀, h₁, ih]

theorem alistPut_length_of_get_none {α : Type} (l : List (String × α)) (k : String) (v : α)
    (h : alistGet l k = none) : (alistPut l k v).length = l.length + 1 := by
  induction l with
  | nil => simp [alistPut]
  | cons hd tl ih =>
    obtain ⟨k', v'⟩ := hd
    by_cases h' : k' = k
    · simp [alistGet, h'] at h
    · simp [alistGet, h'] at h
      simp [alistPut, h', ih h]

/-! ## Engine states used by the concrete scenarios -/

/-- An engine over empty collaborators (no balances, no locks, in-memory
idempotency store, no settlements). -/
def emptyEngine : SettlementEngine :=
  { blockchain := { balances := [], tx_counter := 0 },
    lock_manager := { locks := [] },
    idempotency_store := { store := [], persistence_file := none },
    settlements := [],
    settlement_counter := 0 }

/-! ## Claims -/

/-- C1: for a valid input (`amount > 0`) whose idempotency key is not yet
mapped, calling `initiate_settlement` twice in sequence with the same key
returns the very same `Settlement` both times (in particular the same
settlement id), the second call leaves the engine unchanged, and exactly one
settlement is added to the engine's settlements table.  The freshness
hypothesis on the generated id is the engine's counter invariant. -/
theorem initiate_settlement_twice_same_id (e : SettlementEngine)
    (source_chain dest_chain user_id idempotency_key : String) (amount : ℚ)
    (fs : FileSystem) (now now' : ℚ)
    (hamount : 0 < amount)
    (hkey : e.idempotency_store.get idempotency_key = none)
    (hfresh : alistGet e.settlements
      ("settlement_" ++ zeroPad 8 (e.settlement_counter + 1)) = none) :
    ∃ s1 e1 fs1,
      e.initiate_settlement source_chain dest_chain amount user_id idempotency_key fs now
        = Except.ok (s1, e1, fs1) ∧
      e1.initiate_settlement source_chain dest_chain amount user_id idempotency_key fs1 now'
        = Except.ok (s1, e1, fs1) ∧
      e1.settlements.length = e.settlements.length + 1 := by
  have hle : ¬ amount ≤ 0 := not_le.mpr hamount
  refine ⟨{ settlement_id := "settlement_" ++ zeroPad 8 (e.settlement_counter + 1),
            source_chain := source_chain, dest_chain := dest_chain, amount := amount,
            user_id := user_id, status := SettlementStatus.PENDING,
            created_at := now, updated_at := now },
          { e with
            settlement_counter := e.settlement_counter + 1,
            settlements := alistPut e.settlements
              ("settlement_" ++ zeroPad 8 (e.settlement_counter + 1))
              { settlement_id := "settlement_" ++ zeroPad 8 (e.settlement_counter + 1),
                source_chain := source_chain, dest_chain := dest_chain, amount := amount,
                user_id := user_id, status := SettlementStatus.PENDING,
                created_at := now, updated_at := now },
            idempotency_store := { e.idempotency_store with
              store := alistPut e.idempotency_store.store idempotency_key
                ("settlement_" ++ zeroPad 8 (e.settlement_counter + 1)) } },
          fs, ?_, ?_, ?_⟩
  · unfold SettlementEngine.initiate_settlement
    simp only [if_neg hle, hkey, IdempotencyStore.put]
  · unfold SettlementEngine.initiate_settlement
    simp only [if_neg hle, IdempotencyStore.get, IdempotencyStore.put,
      alistGet_alistPut_self]
  · exact alistPut_length_of_get_none _ _ _ hfresh

/-- Witness for C1 at a concrete input: the empty engine, amount `100`. -/
theorem initiate_settlement_twice_same_id_witness :
    ∃ s1 e1 fs1,
      emptyEngine.initiate_settlement "chainA" "chainB" 100 "u1" "k1" [] 0
        = Except.ok (s1, e1, fs1) ∧
      e1.initiate_settlement "chainA" "chainB" 100 "u1" "k1" fs1 1
        = Except.ok (s1, e1, fs1) ∧
      e1.settlements.length = emptyEngine.settlements.length + 1 :=
  initiate_settlement_twice_same_id emptyEngine "chainA" "chainB" "u1" "k1" 100 [] 0 1
    (by decide) (by rfl) (by rfl)

/-- Concrete rendering of the first generated settlement id. -/
theorem settlement_id_one : "settlement_" ++ zeroPad 8 1 = "settlement_00000001" := by decide

/-- Concrete rendering of the first transaction hash. -/
theorem burn_tx_hash_one : "burn_tx_" ++ zeroPad 6 1 = "burn_tx_000001" := by decide

/-- Concrete rendering of the second transaction hash. -/
theorem mint_tx_hash_two : "mint_tx_" ++ zeroPad 6 2 = "mint_tx_000002" := by decide

/-- The §8 concrete scenario's blockchain: user `u1` holds 1000 on chain `A`
and 0 on chain `B`. -/
def scenarioBlockchain : BlockchainSimulator :=
  (({ balances := [], tx_counter := 0 } : BlockchainSimulator).set_balance
    "A" "u1" 1000).set_balance "B" "u1" 0

/-- The §8 concrete scenario's engine before any request. -/
def scenarioEngine : SettlementEngine :=
  { blockchain := scenarioBlockchain,
    lock_manager := { locks := [] },
    idempotency_store := { store := [], persistence_file := none },
    settlements := [],
    settlement_counter := 0 }

/-- C2: starting from balances 1000 on chain `A` and 0 on chain `B`,
`initiate_settlement(A, B, 100, "u1", "k1")` followed by
`process_settlement` of the returned id leaves 900 on `A` and 100 on `B`,
and the settlement is `COMPLETED` with both transaction hashes set. -/
theorem scenario_process_settlement_completes :
    ∃ s1 e1,
      scenarioEngine.initiate_settlement "A" "B" 100 "u1" "k1" [] 0
        = Except.ok (s1, e1, []) ∧
      (e1.process_settlement s1.settlement_id "Worker-0" 0).2 = Except.ok true ∧
      (e1.process_settlement s1.settlement_id "Worker-0" 0).1.blockchain.get_balance "A" "u1" = 900 ∧
      (e1.process_settlement s1.settlement_id "Worker-0" 0).1.blockchain.get_balance "B" "u1" = 100 ∧
      (e1.process_settlement s1.settlement_id "Worker-0" 0).1.get_settlement s1.settlement_id
        = some { s1 with status := SettlementStatus.COMPLETED,
                         updated_at := 0,
                         burn_tx_hash := some "burn_tx_000001",
                         mint_tx_hash := some "mint_tx_000002" } := by
  refine ⟨_, _, rfl, ?_, ?_, ?_, ?_⟩ <;>
    norm_num [SettlementEngine.process_settlement, SettlementEngine.execute_settlement,
      SettlementEngine.update_settlement_status, SettlementEngine.set_burn_tx_hash,
      SettlementEngine.set_mint_tx_hash, SettlementEngine.set_error_message,
      SettlementEngine.get_settlement, DistributedLockManager.acquire,
      DistributedLockManager.release, LockInfo.is_expired,
      BlockchainSimulator.burn_tokens, BlockchainSimulator.mint_tokens,
      BlockchainSimulator.get_balance, BlockchainSimulator.set_balance,
      scenarioEngine, scenarioBlockchain, alistGet, alistPut, alistDel,
      settlement_id_one, burn_tx_hash_one, mint_tx_hash_two]

/-- C3 (refuting evaluation): `put` does not persist.  Over an empty
filesystem, a store configured with persistence file `idem.json` answers the
mapping after `put`, yet `put` left the filesystem unchanged, and a fresh
store instance constructed over that same filesystem and file recovers
nothing: `get` returns `none` instead of the original settlement id. -/
theorem idempotency_put_not_durable :
    ((IdempotencyStore.init (some "idem.json") []).put [] "k1" "settlement_00000001").1.get "k1"
      = some "settlement_00000001" ∧
    ((IdempotencyStore.init (some "idem.json") []).put [] "k1" "settlement_00000001").2 = [] ∧
    (IdempotencyStore.init (some "idem.json")
        (((IdempotencyStore.init (some "idem.json") []).put [] "k1" "settlement_00000001").2)).get "k1"
      = none := by
  exact ⟨rfl, rfl, rfl⟩

/-- C4 counterexample: after `put("k", "settlement_a")` then
`put("k", "settlement_b")` the store answers the second writer's value, not
the first writer's, refuting first-writer-wins at this input. -/
theorem idempotency_put_first_writer_counterexample :
    ((((IdempotencyStore.init none []).put [] "k" "settlement_a").1.put
        [] "k" "settlement_b").1.get "k" = some "settlement_b") ∧
    ¬ ((((IdempotencyStore.init none []).put [] "k" "settlement_a").1.put
        [] "k" "settlement_b").1.get "k" = some "settlement_a") := by
  exact ⟨rfl, by decide⟩

/-- C4 (amended): for every key already mapped by the store, a subsequent
`put` of that key with a different settlement id overwrites the mapping (last
writer wins): `get` afterwards returns the settlement id of the second
`put`. -/
theorem idempotency_put_last_writer_wins (s : IdempotencyStore)
    (fs fs' : FileSystem) (key id1 id2 : String) :
    ((((s.put fs key id1).1).put fs' key id2).1).get key = some id2 := by
  simp [IdempotencyStore.put, IdempotencyStore.get, alistGet_alistPut_self]

/-- A lock table holding a single live record for key `k`, held by `h1`,
acquired at time 0 with TTL 30. -/
def heldLockManager : DistributedLockManager :=
  ⟨[("k", ⟨"k", "h1", 0, 30⟩)]⟩

/-- C5 (refuting evaluation): `release` is an unimplemented stub.  Releasing a
key with no record returns `true` (the claim requires `false`); releasing a
live record held by `h1` with the wrong holder `h2` returns `true` and leaves
the record in place (the claim requires `false`); even the one case the claim
allows to succeed, the matching holder `h1`, returns `true` but does not
remove the record from the table. -/
theorem release_stub_always_true :
    (⟨[]⟩ : DistributedLockManager).release "k" "h1" = (true, ⟨[]⟩) ∧
    heldLockManager.release "k" "h2" = (true, heldLockManager) ∧
    heldLockManager.release "k" "h1" = (true, heldLockManager) ∧
    (heldLockManager.release "k" "h1").2.locks ≠ [] := by
  exact ⟨rfl, rfl, rfl, by decide⟩

/-- C6 (refuting evaluation): in the §8 scenario, `process_settlement`
completes successfully (so its `finally` block has called `release` on the
exit path), yet immediately afterwards `is_locked` on the settlement's lock
key still reports `true` at the same instant: the stub `release` left the
worker's non-expired lock record in the table. -/
theorem lock_still_held_after_process_settlement :
    ∃ s1 e1,
      scenarioEngine.initiate_settlement "A" "B" 100 "u1" "k1" [] 0
        = Except.ok (s1, e1, []) ∧
      (e1.process_settlement s1.settlement_id "Worker-0" 0).2 = Except.ok true ∧
      ((e1.process_settlement s1.settlement_id "Worker-0" 0).1.lock_manager.is_locked
          ("settlement_" ++ s1.settlement_id) 0).1 = true := by
  refine ⟨_, _, rfl, ?_, ?_⟩ <;>
    norm_num [SettlementEngine.process_settlement, SettlementEngine.execute_settlement,
      SettlementEngine.update_settlement_status, SettlementEngine.set_burn_tx_hash,
      SettlementEngine.set_mint_tx_hash, SettlementEngine.set_error_message,
      DistributedLockManager.acquire, DistributedLockManager.release,
      DistributedLockManager.is_locked, LockInfo.is_expired,
      BlockchainSimulator.burn_tokens, BlockchainSimulator.mint_tokens,
      BlockchainSimulator.get_balance, BlockchainSimulator.set_balance,
      scenarioEngine, scenarioBlockchain, alistGet, alistPut, alistDel,
      settlement_id_one, burn_tx_hash_one, mint_tx_hash_two]

/-- A settlement that failed after a successful burn (mint never happened):
`FAILED`, `burn_tx_hash` recorded, `mint_tx_hash` unset. -/
def failedAfterBurnSettlement : Settlement :=
  { settlement_id := "settlement_00000001", source_chain := "A", dest_chain := "B",
    amount := 100, user_id := "u1", status := SettlementStatus.FAILED,
    created_at := 0, updated_at := 0,
    error_message := some "Mint failed on B",
    burn_tx_hash := some "burn_tx_000001", mint_tx_hash := none }

/-- An engine holding `failedAfterBurnSettlement` with the source chain
already debited by the one burn and the mint fault cleared. -/
def failedAfterBurnEngine : SettlementEngine :=
  { blockchain := { balances := [("A", [("u1", 900)]), ("B", [("u1", 0)])],
                    tx_counter := 1 },
    lock_manager := { locks := [] },
    idempotency_store := { store := [("k1", "settlement_00000001")], persistence_file := none },
    settlements := [("settlement_00000001", failedAfterBurnSettlement)],
    settlement_counter := 1 }

/-- C7 (refuting evaluation): on a settlement that is `FAILED` with
`burn_tx_hash` set and `mint_tx_hash` unset, and with the mint fault cleared,
`retry_settlement` raises `NotImplementedError` and changes nothing — it never
resumes the mint stage, so the settlement cannot reach `COMPLETED`. -/
theorem retry_settlement_raises_not_implemented :
    failedAfterBurnEngine.retry_settlement "settlement_00000001"
      = (failedAfterBurnEngine,
         Except.error ("NotImplementedError: Retry logic not implemented")) := by
  rfl

/-- C8 (refuting evaluation): on the same failed-after-burn settlement,
`_compensate_settlement` raises `NotImplementedError` and changes nothing — it
never mints back on the source chain and no `COMPENSATED` status exists in the
code's `SettlementStatus` enum at all. -/
theorem compensate_settlement_raises_not_implemented :
    failedAfterBurnEngine.compensate_settlement "settlement_00000001"
      = (failedAfterBurnEngine,
         Except.error ("NotImplementedError: Compensation not implemented")) := by
  rfl

/-- Reading a settlement back after `_update_settlement_status`. -/
theorem update_settlement_status_get (e : SettlementEngine) (settlement_id : String)
    (st : SettlementStatus) (now : ℚ) (s : Settlement)
    (hs : alistGet e.settlements settlement_id = some s) :
    alistGet (e.update_settlement_status settlement_id st now).settlements settlement_id
      = some { s with status := st, updated_at := now } := by
  unfold SettlementEngine.update_settlement_status
  simp only [hs, alistGet_alistPut_self]

/-- Reading a settlement back after recording an error message. -/
theorem set_error_message_get (e : SettlementEngine) (settlement_id msg : String)
    (s : Settlement) (hs : alistGet e.settlements settlement_id = some s) :
    alistGet (e.set_error_message settlement_id msg).settlements settlement_id
      = some { s with error_message := some msg } := by
  unfold SettlementEngine.set_error_message
  simp only [hs, alistGet_alistPut_self]

/-- Reading a settlement back after recording the burn transaction hash. -/
theorem set_burn_tx_hash_get (e : SettlementEngine) (settlement_id burn_tx : String)
    (s : Settlement) (hs : alistGet e.settlements settlement_id = some s) :
    alistGet (e.set_burn_tx_hash settlement_id burn_tx).settlements settlement_id
      = some { s with burn_tx_hash := some burn_tx } := by
  unfold SettlementEngine.set_burn_tx_hash
  simp only [hs, alistGet_alistPut_self]

/-- When `_execute_settlement` raises on a known settlement, the raising
ledger stage has recorded the exception message and moved the settlement to
`FAILED` before re-raising. -/
theorem execute_settlement_failure (e : SettlementEngine) (settlement_id : String)
    (now : ℚ) (s : Settlement) (e' : SettlementEngine) (msg : String)
    (hs : alistGet e.settlements settlement_id = some s)
    (hexec : e.execute_settlement settlement_id now = (e', some msg)) :
    ∃ s', alistGet e'.settlements settlement_id = some s' ∧
      s'.status = SettlementStatus.FAILED ∧ s'.error_message = some msg := by
  unfold SettlementEngine.execute_settlement at hexec
  simp only [hs] at hexec
  have hs1 := update_settlement_status_get e settlement_id SettlementStatus.BURNING now s hs
  rcases hb : (e.update_settlement_status settlement_id SettlementStatus.BURNING
      now).blockchain.burn_tokens s.source_chain s.user_id s.amount with msgb | p
  · rw [hb] at hexec
    simp only [Prod.mk.injEq, Option.some.injEq] at hexec
    obtain ⟨he', hmsg⟩ := hexec
    subst hmsg
    subst he'
    exact ⟨_, update_settlement_status_get _ _ _ _ _
      (set_error_message_get _ _ _ _ hs1), rfl, rfl⟩
  · obtain ⟨burn_tx, bc1⟩ := p
    rw [hb] at hexec
    simp only at hexec
    have hs2 : alistGet ({ e.update_settlement_status settlement_id SettlementStatus.BURNING now
        with blockchain := bc1 }).settlements settlement_id
        = some { s with status := SettlementStatus.BURNING, updated_at := now } := hs1
    have hs3 := set_burn_tx_hash_get _ settlement_id burn_tx _ hs2
    have hs4 := update_settlement_status_get _ settlement_id SettlementStatus.BURNED now _ hs3
    have hs5 := update_settlement_status_get _ settlement_id SettlementStatus.MINTING now _ hs4
    rcases hm : (((({ e.update_settlement_status settlement_id SettlementStatus.BURNING now
          with blockchain := bc1 }).set_burn_tx_hash settlement_id burn_tx).update_settlement_status
          settlement_id SettlementStatus.BURNED now).update_settlement_status settlement_id
          SettlementStatus.MINTING now).blockchain.mint_tokens s.dest_chain s.user_id s.amount
      with msgm | q
    · rw [hm] at hexec
      simp only [Prod.mk.injEq, Option.some.injEq] at hexec
      obtain ⟨he', hmsg⟩ := hexec
      subst hmsg
      subst he'
      exact ⟨_, update_settlement_status_get _ _ _ _ _
        (set_error_message_get _ _ _ _ hs5), rfl, rfl⟩
    · obtain ⟨mint_tx, bc2⟩ := q
      rw [hm] at hexec
      simp only [Prod.mk.injEq] at hexec
      exact absurd hexec.2 (by simp)

/-- C9: when a ledger call raises during stage execution of a known `PENDING`
settlement whose lock was acquired, the settlement's status becomes `FAILED`,
its `error_message` records the failure's message, and the same exception
propagates out of `process_settlement` to its caller (there is no internal
retry: `process_settlement` returns exactly this one error). -/
theorem ledger_failure_fails_and_propagates (e : SettlementEngine)
    (settlement_id holder : String) (now : ℚ) (s : Settlement)
    (lm : DistributedLockManager) (msg : String) (efin : SettlementEngine)
    (hs : alistGet e.settlements settlement_id = some s)
    (hpending : s.status = SettlementStatus.PENDING)
    (hacq : e.lock_manager.acquire ("settlement_" ++ settlement_id) holder 30 now
      = (true, lm))
    (hexec : ({ e with lock_manager := lm }.update_settlement_status settlement_id
        SettlementStatus.PROCESSING now).execute_settlement settlement_id now
      = (efin, some msg)) :
    (e.process_settlement settlement_id holder now).2 = Except.error msg ∧
    ∃ s', alistGet (e.process_settlement settlement_id holder now).1.settlements
        settlement_id = some s' ∧
      s'.status = SettlementStatus.FAILED ∧ s'.error_message = some msg := by
  have hred : e.process_settlement settlement_id holder now = (efin, Except.error msg) := by
    unfold SettlementEngine.process_settlement
    simp only [hs, hacq, hexec, hpending, DistributedLockManager.release,
      Bool.true_eq_false, if_false, ne_eq, not_true_eq_false]
  rw [hred]
  refine ⟨rfl, ?_⟩
  exact execute_settlement_failure
    ({ e with lock_manager := lm }.update_settlement_status settlement_id
      SettlementStatus.PROCESSING now) settlement_id now
    { s with status := SettlementStatus.PROCESSING, updated_at := now } efin msg
    (update_settlement_status_get { e with lock_manager := lm } settlement_id
      SettlementStatus.PROCESSING now s hs)
    hexec

/-- A `PENDING` settlement awaiting processing (C9 witness scenario). -/
def pendingSettlement : Settlement :=
  { settlement_id := "settlement_00000001", source_chain := "A", dest_chain := "B",
    amount := 100, user_id := "u1", status := SettlementStatus.PENDING,
    created_at := 0, updated_at := 0 }

/-- An engine holding `pendingSettlement`, with the mint failure injected
(`should_fail_mint = True`). -/
def mintFailEngine : SettlementEngine :=
  { blockchain := { balances := [("A", [("u1", 1000)]), ("B", [("u1", 0)])],
                    tx_counter := 0, should_fail_burn := false, should_fail_mint := true },
    lock_manager := { locks := [] },
    idempotency_store := { store := [("k1", "settlement_00000001")], persistence_file := none },
    settlements := [("settlement_00000001", pendingSettlement)],
    settlement_counter := 1 }

/-- Witness for C9 at a concrete input: processing `pendingSettlement` on
`mintFailEngine` raises the mint failure, leaves the settlement `FAILED` with
the message recorded, and propagates the same message. -/
theorem ledger_failure_fails_and_propagates_witness :
    (mintFailEngine.process_settlement "settlement_00000001" "Worker-0" 0).2
      = Except.error ("Mint failed on B") ∧
    ∃ s', alistGet (mintFailEngine.process_settlement "settlement_00000001" "Worker-0" 0).1.settlements
        "settlement_00000001" = some s' ∧
      s'.status = SettlementStatus.FAILED ∧ s'.error_message = some ("Mint failed on B") :=
  ledger_failure_fails_and_propagates mintFailEngine "settlement_00000001" "Worker-0" 0
    pendingSettlement
    (mintFailEngine.lock_manager.acquire ("settlement_" ++ "settlement_00000001") "Worker-0" 30 0).2
    ("Mint failed on B")
    (({ mintFailEngine with
        lock_manager := (mintFailEngine.lock_manager.acquire
          ("settlement_" ++ "settlement_00000001") "Worker-0" 30 0).2 }.update_settlement_status
        "settlement_00000001" SettlementStatus.PROCESSING 0).execute_settlement
        "settlement_00000001" 0).1
    (by rfl) (by rfl) (by rfl) (by rfl)

/-- C10: when `acquire` is called for a key whose non-expired record is held
by the same holder (reentrant acquisition), only the record's `acquired_at` is
refreshed to the current time — the record keeps its original `ttl_seconds`
and the call's `ttl` argument has no effect on the result. -/
theorem acquire_reentrant_refreshes_only_acquired_at (m : DistributedLockManager)
    (lock_key holder_id : String) (ttl ttl' now : ℚ) (li : LockInfo)
    (hget : alistGet m.locks lock_key = some li)
    (hlive : li.is_expired now = false)
    (hholder : li.holder_id = holder_id) :
    m.acquire lock_key holder_id ttl now
      = (true, ⟨alistPut m.locks lock_key
          { lock_key := li.lock_key, holder_id := li.holder_id,
            acquired_at := now, ttl_seconds := li.ttl_seconds }⟩) ∧
    m.acquire lock_key holder_id ttl now = m.acquire lock_key holder_id ttl' now := by
  have h1 : ∀ t : ℚ, m.acquire lock_key holder_id t now
      = (true, ⟨alistPut m.locks lock_key
          { lock_key := li.lock_key, holder_id := li.holder_id,
            acquired_at := now, ttl_seconds := li.ttl_seconds }⟩) := by
    intro t
    unfold DistributedLockManager.acquire
    simp only [hget, hlive, hholder, Bool.false_eq_true, if_false, eq_self_iff_true, if_true]
  exact ⟨h1 ttl, (h1 ttl).trans (h1 ttl').symm⟩

/-- Witness for C10 at a concrete input: the held lock table, reentrant
acquisition by `h1` at time 5 with TTL arguments 99 and 7. -/
theorem acquire_reentrant_refreshes_only_acquired_at_witness :
    heldLockManager.acquire "k" "h1" 99 5
      = (true, ⟨alistPut heldLockManager.locks "k"
          { lock_key := "k", holder_id := "h1", acquired_at := 5, ttl_seconds := 30 }⟩) ∧
    heldLockManager.acquire "k" "h1" 99 5 = heldLockManager.acquire "k" "h1" 7 5 :=
  acquire_reentrant_refreshes_only_acquired_at heldLockManager "k" "h1" 99 7 5
    ⟨"k", "h1", 0, 30⟩ (by rfl) (by norm_num [LockInfo.is_expired]) (by rfl)
